import Mathlib

/-!
Shallow embedding of `windows-thumbnail-preloader` (`src/main.rs`,
`src/preloader.rs`) and proofs about its preload pipeline.

The program's control flow depends on the outside world only through the
success or failure of each OS call (filesystem listing, COM object creation,
progress-dialog calls, shell-item resolution, thumbnail generation) and the
user-cancellation flag.  Those outcomes are collected in an environment
record, and `preload` is embedded as a pure function from that environment to
the ordered list of observable events of the run together with the value the
Rust function returns (or the panic it dies with).
-/

namespace ThumbnailPreloader

/-- Mirrors the variants of `enum PreloadError` (src/preloader.rs lines
30–64).  The wrapped `io::Error` / `windows_core::Error` payloads are opaque
OS error values that the control flow never inspects, so each variant is
modelled by its tag alone. -/
inductive PreloadErrorKind where
  | invalidDirectory
  | failedToReadDirectory
  | failedToInitialiseCOM
  | failedToCreateProgressDialog
  | failedToCreateBindContext
  | failedToCreateThumbnailCache
  | failedToCreateShellItem
  | failedToShowProgressDialog
  | failedToUpdateProgressDialog
  | failedToGenerateThumbnail
  | failedToHideProgressDialog
  deriving DecidableEq

/-- Observable effects of a run, in program order:
`progressUpdate c t` is a `SetProgress(c, t)` call (line 167),
`forcerCall i` is the call of `generate` for item `i` (line 181),
`logFailure i e` is the `println!("Failed to preload file: ...")` line
printed when `generate` fails for item `i` (line 182), and
`teardown` is a `StopProgressDialog()` call (line 188). -/
inductive Event where
  | progressUpdate (current total : Nat)
  | forcerCall (index : Nat)
  | logFailure (index : Nat) (e : PreloadErrorKind)
  | teardown
  deriving DecidableEq

/-- `true` exactly on a `forcerCall` event. -/
def Event.isForcerCall : Event → Bool
  | .forcerCall _ => true
  | _ => false

/-- One item yielded by the `fs::read_dir` iterator (src/preloader.rs lines
105–110).  `err` is an iterator item that is itself an `Err` (dropped by the
first `.flatten()`); `ok c` is a read entry whose `dunce::canonicalize`
result is `c`: `none` means canonicalization failed (dropped by the second
`.flatten()`), `some p` is the classic-form (non-UNC, non-extended-length)
canonical path that `dunce` produces on success. -/
inductive EntryRead where
  | err
  | ok (canon : Option String)
  deriving DecidableEq

/-- The canonical path an iterator item contributes to the file list, if
any (the composition of the two `.flatten()` drops of lines 107–109). -/
def EntryRead.canon? : EntryRead → Option String
  | .err => none
  | .ok c => c

/-- The target directory as `preload` observes it: whether
`dir.canonicalize()` succeeds (line 96), whether `fs::read_dir(dir)` succeeds
(line 105), and the items its iterator yields. -/
structure Directory where
  valid : Bool
  readable : Bool
  entries : List EntryRead

/-- File enumeration, src/preloader.rs lines 105–110: a directory-listing
failure is fatal (`FailedToReadDirectory`); otherwise the file list is the
ordered list of successfully canonicalized entries, bad entries silently
dropped. -/
def enumerate (readable : Bool) (entries : List EntryRead) :
    Except PreloadErrorKind (List String) :=
  if readable then .ok (entries.filterMap EntryRead.canon?)
  else .error .failedToReadDirectory

/-- The outcome oracle for the OS calls a run makes: each `Bool` answers
"does this call succeed?".  Per-item calls are indexed by the 0-based loop
index.  Field order follows the order the calls appear in `preload`
(src/preloader.rs): `CoInitialize` (117), `CreateBindCtx` (123),
`CoCreateInstance` of the thumbnail cache (124), `CoCreateInstance` of the
progress dialog (130), `SetTitle` (134), the header `SetLine(1, ...)` (138),
`StartProgressDialog` (147), then per item `HasUserCancelled` (153),
`SetProgress` (167), `SetLine(2, ...)` (175), `SHCreateItemFromParsingName`
(199), `GetThumbnail` (204, yielding the image handle that the program
discards), and finally `StopProgressDialog` (188). -/
structure Env where
  coInitOk : Bool
  bindCtxOk : Bool
  thumbCacheOk : Bool
  dialogCreateOk : Bool
  setTitleOk : Bool
  setHeaderOk : Bool
  startOk : Bool
  cancelledAt : Nat → Bool
  setProgressOk : Nat → Bool
  setLineOk : Nat → Bool
  resolveOk : Nat → Bool
  thumbResult : Nat → Except Unit Nat
  stopOk : Bool

/-- All pre-loop calls (COM init, bind context, thumbnail cache, progress
dialog creation/title/header, show) succeed. -/
def Env.setupOk (env : Env) : Bool :=
  env.coInitOk && env.bindCtxOk && env.thumbCacheOk && env.dialogCreateOk &&
    env.setTitleOk && env.setHeaderOk && env.startOk

/-- The parameters of the `GetThumbnail` request that `generate` issues:
the square dimension and whether the force-extraction flag
(`WTS_FORCEEXTRACTION`, which regenerates even over a cached hit) is set. -/
structure ThumbnailRequest where
  dimensions : Nat
  forceExtraction : Bool
  deriving DecidableEq

/-- `DIMENSIONS`, src/preloader.rs line 27. -/
def DIMENSIONS : Nat := 72

/-- `generate`, src/preloader.rs lines 194–207.  `resolveOk` is the outcome
of `SHCreateItemFromParsingName` (line 199) and `thumbResult` the outcome of
`GetThumbnail` (line 204; `.ok data` carries the returned image handle).
Returns the `GetThumbnail` request issued, if any, together with the Rust
function's `Result<(), PreloadError>`: the image data is discarded and
success carries only the unit value. -/
def generate (resolveOk : Bool) (thumbResult : Except Unit Nat) :
    Option ThumbnailRequest × Except PreloadErrorKind Unit :=
  if resolveOk then
    (some ⟨DIMENSIONS, true⟩,
      match thumbResult with
      | .ok _ => .ok ()
      | .error _ => .error .failedToGenerateThumbnail)
  else (none, .error .failedToCreateShellItem)

/-- How the per-item loop of `preload` ends: `finished` covers both
exhaustion of the list and the `break` on user cancellation (both fall
through to line 188); `fatal e` is a `?` inside the loop (lines 168, 176),
which returns from `preload` at once; `panicked msg` is a fired `expect`
(lines 160–161), which unwinds without returning a `PreloadResult`. -/
inductive LoopExit where
  | finished
  | fatal (e : PreloadErrorKind)
  | panicked (msg : String)
  deriving DecidableEq

/-- `u32::MAX`, the largest value `usize::try_into::<u32>()` accepts in the
index/total conversions of src/preloader.rs lines 160–161. -/
def u32Max : Nat := 4294967295

/-- The per-item loop of `preload` (src/preloader.rs lines 151–184),
about to run item `index` with `rem` items remaining, `total` being
`files.len()`.  Produces the events of the remaining iterations in order,
together with the way the loop ends.  Per iteration: poll `HasUserCancelled`
(153, `break` on true), convert the index and the total to `u32` (160–161,
panicking via `expect` on overflow, index first), call `SetProgress` (167)
and `SetLine` (175) with `?` on failure, then call `generate` (181), logging
but otherwise ignoring its error (182). -/
def runLoop (env : Env) (total : Nat) : Nat → Nat → List Event × LoopExit
  | _, 0 => ([], .finished)
  | index, rem + 1 =>
    if env.cancelledAt index then ([], .finished)
    else if u32Max < index then ([], .panicked "failed to convert progress index")
    else if u32Max < total then ([], .panicked "failed to convert progress total")
    else if ¬ env.setProgressOk index then
      ([.progressUpdate index total], .fatal .failedToUpdateProgressDialog)
    else if ¬ env.setLineOk index then
      ([.progressUpdate index total], .fatal .failedToUpdateProgressDialog)
    else
      let gen := generate (env.resolveOk index) (env.thumbResult index)
      let here := [Event.progressUpdate index total, Event.forcerCall index] ++
        (match gen.2 with
         | .ok _ => []
         | .error e => [Event.logFailure index e])
      let rest := runLoop env total (index + 1) rem
      (here ++ rest.1, rest.2)

/-- The caller-visible end of a run: `Ok(())`, `Err(variant)`, or a panic
from a fired `expect` (which escapes the `PreloadResult` type entirely). -/
inductive RunOutcome where
  | ok
  | err (e : PreloadErrorKind)
  | panicked (msg : String)
  deriving DecidableEq

/-- `preload` from COM initialisation onward (src/preloader.rs lines
117–190), given the already-enumerated file list.  The modelled behaviour
depends on the list only through its length (`files.len()`): the paths
themselves flow only into display strings and into the un-modelled OS calls
whose outcomes `Env` already records.  After the loop, `StopProgressDialog`
is attempted only when the loop ended by exhaustion or `break` (a `?` return
and a panic both leave `preload` before line 188), and its failure
propagates via `?` as `FailedToHideProgressDialog`. -/
def preloadFiles (env : Env) (files : List String) : List Event × RunOutcome :=
  if ¬ env.coInitOk then ([], .err .failedToInitialiseCOM)
  else if ¬ env.bindCtxOk then ([], .err .failedToCreateBindContext)
  else if ¬ env.thumbCacheOk then ([], .err .failedToCreateThumbnailCache)
  else if ¬ env.dialogCreateOk then ([], .err .failedToCreateProgressDialog)
  else if ¬ env.setTitleOk then ([], .err .failedToCreateProgressDialog)
  else if ¬ env.setHeaderOk then ([], .err .failedToCreateProgressDialog)
  else if ¬ env.startOk then ([], .err .failedToShowProgressDialog)
  else
    let r := runLoop env files.length 0 files.length
    match r.2 with
    | .fatal e => (r.1, .err e)
    | .panicked m => (r.1, .panicked m)
    | .finished =>
      if env.stopOk then (r.1 ++ [.teardown], .ok)
      else (r.1 ++ [.teardown], .err .failedToHideProgressDialog)

/-- `preload`, src/preloader.rs lines 90–191: canonicalize the target
directory (96, fatal `InvalidDirectory`), enumerate its entries (105–110),
then run the rest of the pipeline. -/
def preload (env : Env) (dir : Directory) : List Event × RunOutcome :=
  if ¬ dir.valid then ([], .err .invalidDirectory)
  else
    match enumerate dir.readable dir.entries with
    | .error e => ([], .err e)
    | .ok files => preloadFiles env files

/-- An environment in which every OS call succeeds and the user never
cancels. -/
def allOkEnv : Env where
  coInitOk := true
  bindCtxOk := true
  thumbCacheOk := true
  dialogCreateOk := true
  setTitleOk := true
  setHeaderOk := true
  startOk := true
  cancelledAt := fun _ => false
  setProgressOk := fun _ => true
  setLineOk := fun _ => true
  resolveOk := fun _ => true
  thumbResult := fun _ => .ok 0
  stopOk := true

/-- Like `allOkEnv`, except `StopProgressDialog` fails. -/
def stopFailEnv : Env :=
  { allOkEnv with stopOk := false }

/-- A directory whose listing yields no entries. -/
def emptyDir : Directory :=
  ⟨true, true, []⟩

/-- A directory with a single well-behaved file. -/
def oneFileDir : Directory :=
  ⟨true, true, [.ok (some "a.jpg")]⟩

/-- The three-file directory of the spec's concrete scenario. -/
def threeFileDir : Directory :=
  ⟨true, true, [.ok (some "a.jpg"), .ok (some "b.txt"), .ok (some "c.png")]⟩

/-- `env` with shell-item resolution and thumbnail generation forced to
succeed for every item, every other oracle unchanged: the "all per-item
Forcer calls succeed" variant of a run. -/
def scrubGen (env : Env) : Env :=
  { env with resolveOk := fun _ => true, thumbResult := fun _ => .ok 0 }

/-- Like `allOkEnv`, except every per-item `SetProgress` call fails. -/
def midLoopFailEnv : Env :=
  { allOkEnv with setProgressOk := fun _ => false }

/-- Like `allOkEnv`, except every shell-item resolution fails. -/
def resolveFailEnv : Env :=
  { allOkEnv with resolveOk := fun _ => false }

/-- Like `allOkEnv`, except COM initialisation fails. -/
def comFailEnv : Env :=
  { allOkEnv with coInitOk := false }

/-- Like `allOkEnv`, except the user has cancelled from the very start and
`StopProgressDialog` fails. -/
def cancelStopFailEnv : Env :=
  { allOkEnv with cancelledAt := fun _ => true, stopOk := false }

/-- Like `allOkEnv`, except the cancellation poll answers `true` from item 1
on: cancellation is first observed at the top of iteration 1. -/
def cancelAfterOneEnv : Env :=
  { allOkEnv with cancelledAt := fun i => i != 0 }

/-- A directory listing with one good entry, one unreadable entry and one
entry whose canonicalization fails. -/
def sampleEntries : List EntryRead :=
  [.ok (some "a.jpg"), .err, .ok none]

@[simp] theorem scrubGen_coInitOk (env : Env) : (scrubGen env).coInitOk = env.coInitOk := rfl

@[simp] theorem scrubGen_bindCtxOk (env : Env) : (scrubGen env).bindCtxOk = env.bindCtxOk := rfl

@[simp] theorem scrubGen_thumbCacheOk (env : Env) : (scrubGen env).thumbCacheOk = env.thumbCacheOk := rfl

@[simp] theorem scrubGen_dialogCreateOk (env : Env) : (scrubGen env).dialogCreateOk = env.dialogCreateOk := rfl

@[simp] theorem scrubGen_setTitleOk (env : Env) : (scrubGen env).setTitleOk = env.setTitleOk := rfl

@[simp] theorem scrubGen_setHeaderOk (env : Env) : (scrubGen env).setHeaderOk = env.setHeaderOk := rfl

@[simp] theorem scrubGen_startOk (env : Env) : (scrubGen env).startOk = env.startOk := rfl

@[simp] theorem scrubGen_cancelledAt (env : Env) : (scrubGen env).cancelledAt = env.cancelledAt := rfl

@[simp] theorem scrubGen_setProgressOk (env : Env) : (scrubGen env).setProgressOk = env.setProgressOk := rfl

@[simp] theorem scrubGen_setLineOk (env : Env) : (scrubGen env).setLineOk = env.setLineOk := rfl

@[simp] theorem scrubGen_resolveOk (env : Env) : (scrubGen env).resolveOk = fun _ => true := rfl

@[simp] theorem scrubGen_thumbResult (env : Env) : (scrubGen env).thumbResult = fun _ => .ok 0 := rfl

@[simp] theorem scrubGen_stopOk (env : Env) : (scrubGen env).stopOk = env.stopOk := rfl

@[simp] theorem scrubGen_setupOk (env : Env) : (scrubGen env).setupOk = env.setupOk := rfl

/-- The setup guard spelt out field by field. -/
theorem Env.setupOk_iff (env : Env) : env.setupOk = true ↔
    env.coInitOk = true ∧ env.bindCtxOk = true ∧ env.thumbCacheOk = true ∧
    env.dialogCreateOk = true ∧ env.setTitleOk = true ∧ env.setHeaderOk = true ∧
    env.startOk = true := by
  simp [Env.setupOk, Bool.and_eq_true, and_assoc]

/-- The loop never emits a `teardown` event: `StopProgressDialog` is only
reached after the loop (src/preloader.rs line 188). -/
theorem runLoop_no_teardown (env : Env) (total : Nat) :
    ∀ rem index, Event.teardown ∉ (runLoop env total index rem).1 := by
  intro rem
  induction rem with
  | zero => intro index; simp [runLoop]
  | succ rem ih =>
    intro index
    by_cases hc : env.cancelledAt index
    · simp [runLoop, hc]
    · by_cases hi : u32Max < index
      · simp [runLoop, hc, hi]
      · by_cases ht : u32Max < total
        · simp [runLoop, hc, hi, ht]
        · by_cases hp : env.setProgressOk index
          · by_cases hl : env.setLineOk index
            · cases hg : (generate (env.resolveOk index) (env.thumbResult index)).2 with
              | ok _ => simp [runLoop, hc, hi, ht, hp, hl, hg, ih]
              | error e => simp [runLoop, hc, hi, ht, hp, hl, hg, ih]
            · simp [runLoop, hc, hi, ht, hp, hl]
          · simp [runLoop, hc, hi, ht, hp]

/-- Any `progressUpdate` event the loop emits carries the fixed total and an
index within the window of remaining items. -/
theorem runLoop_progressUpdate_mem (env : Env) (total : Nat) :
    ∀ rem index c t, Event.progressUpdate c t ∈ (runLoop env total index rem).1 →
      index ≤ c ∧ c < index + rem ∧ t = total := by
  intro rem
  induction rem with
  | zero => intro index c t h; simp [runLoop] at h
  | succ rem ih =>
    intro index c t h
    by_cases hc : env.cancelledAt index
    · simp [runLoop, hc] at h
    · by_cases hi : u32Max < index
      · simp [runLoop, hc, hi] at h
      · by_cases ht : u32Max < total
        · simp [runLoop, hc, hi, ht] at h
        · by_cases hp : env.setProgressOk index
          · by_cases hl : env.setLineOk index
            · cases hg : (generate (env.resolveOk index) (env.thumbResult index)).2 with
              | ok _ =>
                simp [runLoop, hc, hi, ht, hp, hl, hg] at h
                rcases h with ⟨rfl, rfl⟩ | h
                · omega
                · have := ih (index + 1) c t h
                  omega
              | error e =>
                simp [runLoop, hc, hi, ht, hp, hl, hg] at h
                rcases h with ⟨rfl, rfl⟩ | h
                · omega
                · have := ih (index + 1) c t h
                  omega
            · simp [runLoop, hc, hi, ht, hp, hl] at h
              rcases h with ⟨rfl, rfl⟩
              omega
          · simp [runLoop, hc, hi, ht, hp] at h
            rcases h with ⟨rfl, rfl⟩
            omega

/-- The only fatal (`?`-propagated) error the loop can produce is
`FailedToUpdateProgressDialog` (src/preloader.rs lines 168, 176). -/
theorem runLoop_fatal_kind (env : Env) (total : Nat) :
    ∀ rem index e, (runLoop env total index rem).2 = .fatal e →
      e = .failedToUpdateProgressDialog := by
  intro rem
  induction rem with
  | zero => intro index e h; simp [runLoop] at h
  | succ rem ih =>
    intro index e h
    by_cases hc : env.cancelledAt index
    · simp [runLoop, hc] at h
    · by_cases hi : u32Max < index
      · simp [runLoop, hc, hi] at h
      · by_cases ht : u32Max < total
        · simp [runLoop, hc, hi, ht] at h
        · by_cases hp : env.setProgressOk index
          · by_cases hl : env.setLineOk index
            · simp [runLoop, hc, hi, ht, hp, hl] at h
              exact ih (index + 1) e h
            · simp [runLoop, hc, hi, ht, hp, hl] at h
              exact h.symm
          · simp [runLoop, hc, hi, ht, hp] at h
            exact h.symm

/-- As long as the total fits in `u32` and the window stays below the total,
no `expect` fires. -/
theorem runLoop_no_panic (env : Env) (total : Nat) (htot : total ≤ u32Max) :
    ∀ rem index, index + rem ≤ total →
      ∀ m, (runLoop env total index rem).2 ≠ .panicked m := by
  intro rem
  induction rem with
  | zero => intro index hle m; simp [runLoop]
  | succ rem ih =>
    intro index hle m
    have hi : ¬ u32Max < index := by omega
    have ht : ¬ u32Max < total := by omega
    by_cases hc : env.cancelledAt index
    · simp [runLoop, hc]
    · by_cases hp : env.setProgressOk index
      · by_cases hl : env.setLineOk index
        · have := ih (index + 1) (by omega) m
          simp [runLoop, hc, hi, ht, hp, hl]
          exact this
        · simp [runLoop, hc, hi, ht, hp, hl]
      · simp [runLoop, hc, hi, ht, hp]

@[simp] theorem generate_scrub : generate true (Except.ok 0) = (some ⟨DIMENSIONS, true⟩, .ok ()) := rfl

/-- The way the loop ends does not depend on the outcomes of the per-item
`generate` calls. -/
theorem runLoop_scrub_exit (env : Env) (total : Nat) :
    ∀ rem index,
      (runLoop (scrubGen env) total index rem).2 = (runLoop env total index rem).2 := by
  intro rem
  induction rem with
  | zero => intro index; rfl
  | succ rem ih =>
    intro index
    by_cases hc : env.cancelledAt index
    · simp [runLoop, hc]
    · by_cases hi : u32Max < index
      · simp [runLoop, hc, hi]
      · by_cases ht : u32Max < total
        · simp [runLoop, hc, hi, ht]
        · by_cases hp : env.setProgressOk index
          · by_cases hl : env.setLineOk index
            · simp [runLoop, hc, hi, ht, hp, hl, ih]
            · simp [runLoop, hc, hi, ht, hp, hl]
          · simp [runLoop, hc, hi, ht, hp]

/-- Which items the loop hands to the Forcer does not depend on the outcomes
of the per-item `generate` calls either: a failed item never stops the
following ones from being processed. -/
theorem runLoop_scrub_forcer (env : Env) (total : Nat) :
    ∀ rem index j,
      (Event.forcerCall j ∈ (runLoop (scrubGen env) total index rem).1 ↔
        Event.forcerCall j ∈ (runLoop env total index rem).1) := by
  intro rem
  induction rem with
  | zero => intro index j; simp [runLoop]
  | succ rem ih =>
    intro index j
    by_cases hc : env.cancelledAt index
    · simp [runLoop, hc]
    · by_cases hi : u32Max < index
      · simp [runLoop, hc, hi]
      · by_cases ht : u32Max < total
        · simp [runLoop, hc, hi, ht]
        · by_cases hp : env.setProgressOk index
          · by_cases hl : env.setLineOk index
            · cases hg : (generate (env.resolveOk index) (env.thumbResult index)).2 with
              | ok _ => simp [runLoop, hc, hi, ht, hp, hl, hg, ih]
              | error e => simp [runLoop, hc, hi, ht, hp, hl, hg, ih]
            · simp [runLoop, hc, hi, ht, hp, hl]
          · simp [runLoop, hc, hi, ht, hp]

/-- Whenever an item was handed to the Forcer and its `generate` call fails,
the corresponding failure log line is in the run's events. -/
theorem runLoop_log_mem (env : Env) (total : Nat) :
    ∀ rem index j e, Event.forcerCall j ∈ (runLoop env total index rem).1 →
      (generate (env.resolveOk j) (env.thumbResult j)).2 = .error e →
      Event.logFailure j e ∈ (runLoop env total index rem).1 := by
  intro rem
  induction rem with
  | zero => intro index j e h _; simp [runLoop] at h
  | succ rem ih =>
    intro index j e h hgen
    by_cases hc : env.cancelledAt index
    · simp [runLoop, hc] at h
    · by_cases hi : u32Max < index
      · simp [runLoop, hc, hi] at h
      · by_cases ht : u32Max < total
        · simp [runLoop, hc, hi, ht] at h
        · by_cases hp : env.setProgressOk index
          · by_cases hl : env.setLineOk index
            · cases hg : (generate (env.resolveOk index) (env.thumbResult index)).2 with
              | ok _ =>
                simp [runLoop, hc, hi, ht, hp, hl, hg] at h ⊢
                rcases h with rfl | h
                · rw [hgen] at hg
                  simp at hg
                · exact ih (index + 1) j e h hgen
              | error f =>
                simp [runLoop, hc, hi, ht, hp, hl, hg] at h ⊢
                rcases h with rfl | h
                · rw [hgen] at hg
                  injection hg with hg
                  exact Or.inl ⟨rfl, hg⟩
                · exact Or.inr (ih (index + 1) j e h hgen)
            · simp [runLoop, hc, hi, ht, hp, hl] at h
          · simp [runLoop, hc, hi, ht, hp] at h

/-- Under a fully successful setup, `preloadFiles` is the loop followed by
the teardown attempt (or no such attempt if the loop left fatally or by a
panic). -/
theorem preloadFiles_setup (env : Env) (files : List String) (hsetup : env.setupOk = true) :
    preloadFiles env files =
      match (runLoop env files.length 0 files.length).2 with
      | .fatal e => ((runLoop env files.length 0 files.length).1, .err e)
      | .panicked m => ((runLoop env files.length 0 files.length).1, .panicked m)
      | .finished =>
        if env.stopOk then
          ((runLoop env files.length 0 files.length).1 ++ [.teardown], .ok)
        else
          ((runLoop env files.length 0 files.length).1 ++ [.teardown],
            .err .failedToHideProgressDialog) := by
  obtain ⟨h1, h2, h3, h4, h5, h6, h7⟩ := (Env.setupOk_iff env).mp hsetup
  simp [preloadFiles, h1, h2, h3, h4, h5, h6, h7]

/-- Every error `preloadFiles` can return. -/
theorem preloadFiles_err_kind (env : Env) (files : List String) (e : PreloadErrorKind)
    (h : (preloadFiles env files).2 = .err e) :
    e = .failedToInitialiseCOM ∨ e = .failedToCreateBindContext ∨
    e = .failedToCreateThumbnailCache ∨ e = .failedToCreateProgressDialog ∨
    e = .failedToShowProgressDialog ∨ e = .failedToUpdateProgressDialog ∨
    e = .failedToHideProgressDialog := by
  simp only [preloadFiles] at h
  split at h
  · simp at h; tauto
  · split at h
    · simp at h; tauto
    · split at h
      · simp at h; tauto
      · split at h
        · simp at h; tauto
        · split at h
          · simp at h; tauto
          · split at h
            · simp at h; tauto
            · split at h
              · simp at h; tauto
              · split at h
                · next e' heq =>
                  simp at h
                  have := runLoop_fatal_kind env files.length files.length 0 e' heq
                  subst h
                  tauto
                · simp at h
                · split at h
                  · simp at h
                  · simp at h; tauto

/-- If `preloadFiles` ends in a panic, the panic came out of the loop. -/
theorem preloadFiles_panicked_src (env : Env) (files : List String) (m : String)
    (h : (preloadFiles env files).2 = .panicked m) :
    (runLoop env files.length 0 files.length).2 = .panicked m := by
  simp only [preloadFiles] at h
  split at h
  · simp at h
  · split at h
    · simp at h
    · split at h
      · simp at h
      · split at h
        · simp at h
        · split at h
          · simp at h
          · split at h
            · simp at h
            · split at h
              · simp at h
              · split at h
                · simp at h
                · next m' heq =>
                  simp at h
                  subst h
                  exact heq
                · split at h
                  · simp at h
                  · simp at h

/-- Every non-`teardown` event of a `preloadFiles` run was emitted by the
loop. -/
theorem mem_runLoop_of_mem_preloadFiles (env : Env) (files : List String) (ev : Event)
    (hne : ev ≠ Event.teardown) (h : ev ∈ (preloadFiles env files).1) :
    ev ∈ (runLoop env files.length 0 files.length).1 := by
  simp only [preloadFiles] at h
  split at h
  · simp at h
  · split at h
    · simp at h
    · split at h
      · simp at h
      · split at h
        · simp at h
        · split at h
          · simp at h
          · split at h
            · simp at h
            · split at h
              · simp at h
              · split at h
                · exact h
                · exact h
                · split at h
                  · simp at h
                    rcases h with h | h
                    · exact h
                    · exact absurd h hne
                  · simp at h
                    rcases h with h | h
                    · exact h
                    · exact absurd h hne

/-- A run whose first `m` items go through cleanly and whose cancellation
poll first answers `true` at item `index + m` finishes the loop normally,
hands exactly items `index, ..., index + m - 1` to the Forcer (in order), and
issues no progress update at or beyond the cancelled item. -/
theorem runLoop_cancelled_run (env : Env) (total : Nat) (htot : total ≤ u32Max) :
    ∀ m index rem, m < rem → index + rem ≤ total →
      (∀ j, j < m → env.cancelledAt (index + j) = false ∧
        env.setProgressOk (index + j) = true ∧ env.setLineOk (index + j) = true) →
      env.cancelledAt (index + m) = true →
      (runLoop env total index rem).2 = .finished ∧
      (runLoop env total index rem).1.filter Event.isForcerCall =
        (List.range' index m).map Event.forcerCall ∧
      (∀ c t, Event.progressUpdate c t ∈ (runLoop env total index rem).1 →
        index ≤ c ∧ c < index + m) := by
  intro m
  induction m with
  | zero =>
    intro index rem hm hle hpre hcan
    obtain ⟨rem, rfl⟩ : ∃ r, rem = r + 1 := ⟨rem - 1, by omega⟩
    rw [Nat.add_zero] at hcan
    refine ⟨?_, ?_, ?_⟩ <;> simp [runLoop, hcan, List.range']
  | succ m ih =>
    intro index rem hm hle hpre hcan
    obtain ⟨rem, rfl⟩ : ∃ r, rem = r + 1 := ⟨rem - 1, by omega⟩
    obtain ⟨hc0, hp0, hl0⟩ := by
      have := hpre 0 (Nat.succ_pos m)
      rwa [Nat.add_zero] at this
    have hi : ¬ u32Max < index := by omega
    have ht : ¬ u32Max < total := by omega
    have hcan' : env.cancelledAt (index + 1 + m) = true := by
      rwa [show index + 1 + m = index + (m + 1) by omega]
    have hpre' : ∀ j, j < m → env.cancelledAt (index + 1 + j) = false ∧
        env.setProgressOk (index + 1 + j) = true ∧ env.setLineOk (index + 1 + j) = true := by
      intro j hj
      have := hpre (j + 1) (by omega)
      rwa [show index + (j + 1) = index + 1 + j by omega] at this
    obtain ⟨ih1, ih2, ih3⟩ := ih (index + 1) rem (by omega) (by omega) hpre' hcan'
    cases hg : (generate (env.resolveOk index) (env.thumbResult index)).2 with
    | ok _ =>
      refine ⟨?_, ?_, ?_⟩
      · simp [runLoop, hc0, hi, ht, hp0, hl0, hg, ih1]
      · simp [runLoop, hc0, hi, ht, hp0, hl0, hg, Event.isForcerCall, List.range', ih2]
      · intro c t hmem
        simp [runLoop, hc0, hi, ht, hp0, hl0, hg] at hmem
        rcases hmem with ⟨rfl, rfl⟩ | hmem
        · omega
        · have := ih3 c t hmem
          omega
    | error f =>
      refine ⟨?_, ?_, ?_⟩
      · simp [runLoop, hc0, hi, ht, hp0, hl0, hg, ih1]
      · simp [runLoop, hc0, hi, ht, hp0, hl0, hg, Event.isForcerCall, List.range', ih2]
      · intro c t hmem
        simp [runLoop, hc0, hi, ht, hp0, hl0, hg] at hmem
        rcases hmem with ⟨rfl, rfl⟩ | hmem
        · omega
        · have := ih3 c t hmem
          omega

/-- `generate` only ever fails with one of the two per-item error kinds. -/
theorem generate_error_kinds (r : Bool) (t : Except Unit Nat) (f : PreloadErrorKind)
    (h : (generate r t).2 = .error f) :
    f = .failedToCreateShellItem ∨ f = .failedToGenerateThumbnail := by
  by_cases hr : r
  · cases t with
    | ok d => simp [generate, hr] at h
    | error u =>
      simp [generate, hr] at h
      exact Or.inr h.symm
  · simp [generate, hr] at h
    exact Or.inl h.symm

/-- The run's result and the set of items handed to the Forcer do not depend
on the per-item `generate` outcomes. -/
theorem preloadFiles_scrub_outcome (env : Env) (files : List String) (i : Nat) :
    (preloadFiles env files).2 = (preloadFiles (scrubGen env) files).2 ∧
    (Event.forcerCall i ∈ (preloadFiles env files).1 ↔
      Event.forcerCall i ∈ (preloadFiles (scrubGen env) files).1) := by
  by_cases h1 : env.coInitOk
  · by_cases h2 : env.bindCtxOk
    · by_cases h3 : env.thumbCacheOk
      · by_cases h4 : env.dialogCreateOk
        · by_cases h5 : env.setTitleOk
          · by_cases h6 : env.setHeaderOk
            · by_cases h7 : env.startOk
              · have hs : env.setupOk = true := by
                  simp [Env.setupOk, h1, h2, h3, h4, h5, h6, h7]
                have hp := preloadFiles_setup env files hs
                have hp' := preloadFiles_setup (scrubGen env) files (by simp [hs])
                have e2 := runLoop_scrub_exit env files.length files.length 0
                have hforcer := runLoop_scrub_forcer env files.length files.length 0 i
                cases hx : (runLoop env files.length 0 files.length).2 with
                | finished =>
                  have hx' : (runLoop (scrubGen env) files.length 0 files.length).2 =
                      .finished := by rw [e2, hx]
                  by_cases hstop : env.stopOk
                  · simp [hp, hp', hx, hx', hstop, hforcer]
                  · simp [hp, hp', hx, hx', hstop, hforcer]
                | fatal e =>
                  have hx' : (runLoop (scrubGen env) files.length 0 files.length).2 =
                      .fatal e := by rw [e2, hx]
                  simp [hp, hp', hx, hx', hforcer]
                | panicked m =>
                  have hx' : (runLoop (scrubGen env) files.length 0 files.length).2 =
                      .panicked m := by rw [e2, hx]
                  simp [hp, hp', hx, hx', hforcer]
              · simp [preloadFiles, h1, h2, h3, h4, h5, h6, h7]
            · simp [preloadFiles, h1, h2, h3, h4, h5, h6]
          · simp [preloadFiles, h1, h2, h3, h4, h5]
        · simp [preloadFiles, h1, h2, h3, h4]
      · simp [preloadFiles, h1, h2, h3]
    · simp [preloadFiles, h1, h2]
  · simp [preloadFiles, h1]

/-- A processed item whose `generate` call fails leaves its failure log line
in the run's events. -/
theorem preloadFiles_log (env : Env) (files : List String) (i : Nat) (e : PreloadErrorKind)
    (hgen : (generate (env.resolveOk i) (env.thumbResult i)).2 = .error e)
    (hfc : Event.forcerCall i ∈ (preloadFiles env files).1) :
    Event.logFailure i e ∈ (preloadFiles env files).1 := by
  by_cases h1 : env.coInitOk
  · by_cases h2 : env.bindCtxOk
    · by_cases h3 : env.thumbCacheOk
      · by_cases h4 : env.dialogCreateOk
        · by_cases h5 : env.setTitleOk
          · by_cases h6 : env.setHeaderOk
            · by_cases h7 : env.startOk
              · have hs : env.setupOk = true := by
                  simp [Env.setupOk, h1, h2, h3, h4, h5, h6, h7]
                have hp := preloadFiles_setup env files hs
                have hfc' := mem_runLoop_of_mem_preloadFiles env files _ (by simp) hfc
                have hlog := runLoop_log_mem env files.length files.length 0 i e hfc' hgen
                cases hx : (runLoop env files.length 0 files.length).2 with
                | finished =>
                  by_cases hstop : env.stopOk
                  · simp [hp, hx, hstop, hlog]
                  · simp [hp, hx, hstop, hlog]
                | fatal f => simp [hp, hx, hlog]
                | panicked m => simp [hp, hx, hlog]
              · simp [preloadFiles, h1, h2, h3, h4, h5, h6, h7] at hfc
            · simp [preloadFiles, h1, h2, h3, h4, h5, h6] at hfc
          · simp [preloadFiles, h1, h2, h3, h4, h5] at hfc
        · simp [preloadFiles, h1, h2, h3, h4] at hfc
      · simp [preloadFiles, h1, h2, h3] at hfc
    · simp [preloadFiles, h1, h2] at hfc
  · simp [preloadFiles, h1] at hfc

/-- The successfully canonicalized entries form an order-preserving
sub-selection of the directory listing. -/
theorem canon_filterMap_sublist (entries : List EntryRead) :
    ((entries.filterMap EntryRead.canon?).map fun p => EntryRead.ok (some p)).Sublist
      entries := by
  induction entries with
  | nil => simp
  | cons e rest ih =>
    cases e with
    | err =>
      simpa [List.filterMap_cons, EntryRead.canon?] using List.Sublist.cons _ ih
    | ok c =>
      cases c with
      | none =>
        simpa [List.filterMap_cons, EntryRead.canon?] using List.Sublist.cons _ ih
      | some p =>
        simpa [List.filterMap_cons, EntryRead.canon?] using
          List.Sublist.cons₂ (EntryRead.ok (some p)) ih

/-- Claim C1: in every run of `preload`, a per-item Forcer failure (shell
item resolution failing with `FailedToCreateShellItem`, or thumbnail
generation failing with `FailedToGenerateThumbnail`) is logged and does not
propagate as the run's error: the run's overall result and the set of items
handed to the Forcer are exactly those of the run in which every per-item
`generate` call succeeds, and each processed item whose `generate` call
fails leaves a failure log event in the run. -/
theorem preload_per_item_failure_policy (env : Env) (dir : Directory) (i : Nat)
    (e : PreloadErrorKind) :
    (preload env dir).2 = (preload (scrubGen env) dir).2 ∧
    (Event.forcerCall i ∈ (preload env dir).1 ↔
      Event.forcerCall i ∈ (preload (scrubGen env) dir).1) ∧
    ((generate (env.resolveOk i) (env.thumbResult i)).2 = .error e →
      (e = .failedToCreateShellItem ∨ e = .failedToGenerateThumbnail) ∧
      (Event.forcerCall i ∈ (preload env dir).1 →
        Event.logFailure i e ∈ (preload env dir).1)) := by
  by_cases hv : dir.valid
  · cases henum : enumerate dir.readable dir.entries with
    | error f =>
      refine ⟨by simp [preload, hv, henum], by simp [preload, hv, henum], ?_⟩
      intro hgen
      refine ⟨generate_error_kinds _ _ _ hgen, ?_⟩
      intro hfc
      simp [preload, hv, henum] at hfc
    | ok files =>
      have hso := preloadFiles_scrub_outcome env files i
      refine ⟨by simpa [preload, hv, henum] using hso.1,
        by simpa [preload, hv, henum] using hso.2, ?_⟩
      intro hgen
      refine ⟨generate_error_kinds _ _ _ hgen, ?_⟩
      intro hfc
      have hfc' : Event.forcerCall i ∈ (preloadFiles env files).1 := by
        simpa [preload, hv, henum] using hfc
      simpa [preload, hv, henum] using preloadFiles_log env files i e hgen hfc'
  · refine ⟨by simp [preload, hv], by simp [preload, hv], ?_⟩
    intro hgen
    refine ⟨generate_error_kinds _ _ _ hgen, ?_⟩
    intro hfc
    simp [preload, hv] at hfc

/-- Claim C1, witness: with shell-item resolution failing for every item,
the one-file run still returns the same outcome as its all-success variant
and logs the per-item `FailedToCreateShellItem`. -/
theorem preload_per_item_failure_policy_witness :
    (preload resolveFailEnv oneFileDir).2 = (preload (scrubGen resolveFailEnv) oneFileDir).2 ∧
    Event.logFailure 0 .failedToCreateShellItem ∈ (preload resolveFailEnv oneFileDir).1 := by
  have h := preload_per_item_failure_policy resolveFailEnv oneFileDir 0 .failedToCreateShellItem
  exact ⟨h.1, (h.2.2 rfl).2 (by decide)⟩

/-- Claim C2, counterexample: a run that processes its single file cleanly
and reaches the end of the loop, but whose `StopProgressDialog` call fails,
returns `Err(FailedToHideProgressDialog)` instead of the success the file
processing had determined. -/
theorem preload_teardown_reversal_counterexample :
    (runLoop stopFailEnv 1 0 1).2 = .finished ∧
    Event.teardown ∈ (preload stopFailEnv oneFileDir).1 ∧
    (preload stopFailEnv oneFileDir).2 = .err .failedToHideProgressDialog ∧
    (preload stopFailEnv oneFileDir).2 ≠ .ok := by decide

/-- Claim C2 (amended): for every run that reaches the end of the per-item
loop (by exhaustion or cancellation), teardown is attempted, and a teardown
failure is propagated by the trailing `?`: `preload` returns
`Err(FailedToHideProgressDialog)`, reversing the success determined by the
file processing; the run returns that success only when teardown also
succeeds. -/
theorem preload_teardown_failure_propagates (env : Env) (dir : Directory)
    (files : List String)
    (hv : dir.valid = true)
    (he : enumerate dir.readable dir.entries = .ok files)
    (hsetup : env.setupOk = true)
    (hfin : (runLoop env files.length 0 files.length).2 = .finished) :
    Event.teardown ∈ (preload env dir).1 ∧
    (preload env dir).2 =
      (if env.stopOk then .ok else .err .failedToHideProgressDialog) := by
  have hp := preloadFiles_setup env files hsetup
  rw [hfin] at hp
  by_cases hstop : env.stopOk
  · simp [preload, hv, he, hp, hstop]
  · simp [preload, hv, he, hp, hstop]

/-- Claim C2 (amended), witness: the one-file run with failing teardown. -/
theorem preload_teardown_failure_propagates_witness :
    Event.teardown ∈ (preload stopFailEnv oneFileDir).1 ∧
    (preload stopFailEnv oneFileDir).2 =
      (if stopFailEnv.stopOk then .ok else .err .failedToHideProgressDialog) :=
  preload_teardown_failure_propagates stopFailEnv oneFileDir ["a.jpg"] rfl rfl rfl (by decide)

/-- Claim C3, counterexample: a fatal mid-loop `FailedToUpdateProgressDialog`
abort returns from `preload` through `?` without ever attempting
`StopProgressDialog`: teardown is skipped on this exit path. -/
theorem preload_no_teardown_on_fatal_counterexample :
    (preload midLoopFailEnv oneFileDir).2 = .err .failedToUpdateProgressDialog ∧
    Event.teardown ∉ (preload midLoopFailEnv oneFileDir).1 := by decide

/-- Claim C3 (amended): teardown (`StopProgressDialog`) is attempted when the
per-item loop ends by exhaustion or by the cancellation `break`, but it is
skipped whenever the loop exits with a fatal mid-loop error (in particular a
`FailedToUpdateProgressDialog` abort) and whenever a conversion panic
unwinds the run. -/
theorem preload_teardown_attempt_paths (env : Env) (dir : Directory) (files : List String)
    (hv : dir.valid = true)
    (he : enumerate dir.readable dir.entries = .ok files)
    (hsetup : env.setupOk = true) :
    ((runLoop env files.length 0 files.length).2 = .finished →
      Event.teardown ∈ (preload env dir).1) ∧
    (∀ e, (runLoop env files.length 0 files.length).2 = .fatal e →
      Event.teardown ∉ (preload env dir).1) ∧
    (∀ m, (runLoop env files.length 0 files.length).2 = .panicked m →
      Event.teardown ∉ (preload env dir).1) := by
  refine ⟨?_, ?_, ?_⟩
  · intro hfin
    have hp := preloadFiles_setup env files hsetup
    rw [hfin] at hp
    by_cases hstop : env.stopOk
    · simp [preload, hv, he, hp, hstop]
    · simp [preload, hv, he, hp, hstop]
  · intro e hfat
    have hp := preloadFiles_setup env files hsetup
    rw [hfat] at hp
    simp [preload, hv, he, hp, runLoop_no_teardown env files.length files.length 0]
  · intro m hpan
    have hp := preloadFiles_setup env files hsetup
    rw [hpan] at hp
    simp [preload, hv, he, hp, runLoop_no_teardown env files.length files.length 0]

/-- Claim C3 (amended), witness: on the fatal-update path of the one-file
run, teardown is not attempted. -/
theorem preload_teardown_attempt_paths_witness :
    Event.teardown ∉ (preload midLoopFailEnv oneFileDir).1 :=
  (preload_teardown_attempt_paths midLoopFailEnv oneFileDir ["a.jpg"] rfl rfl rfl).2.1
    .failedToUpdateProgressDialog (by decide)

/-- Claim C4, counterexample: cancellation observed at the top of iteration
0 of a one-file run does yield zero Forcer calls and a teardown attempt, but
the run does not terminate without error: the failing teardown makes it
return `Err(FailedToHideProgressDialog)`. -/
theorem preload_cancellation_error_counterexample :
    cancelStopFailEnv.cancelledAt 0 = true ∧
    (preload cancelStopFailEnv oneFileDir).1.filter Event.isForcerCall = [] ∧
    Event.teardown ∈ (preload cancelStopFailEnv oneFileDir).1 ∧
    (preload cancelStopFailEnv oneFileDir).2 = .err .failedToHideProgressDialog ∧
    (preload cancelStopFailEnv oneFileDir).2 ≠ .ok := by decide

/-- Claim C4 (amended): if the cancellation poll first reports `true` at the
top of iteration `k` of an `N`-file run (`k < N`, the first `k` iterations
passing their progress calls, `N` within `u32`), the run hands exactly items
`0..k-1` to the Forcer in order, issues no progress update for item `k`,
still attempts teardown, and — provided the teardown call succeeds —
terminates without error. -/
theorem preload_cancelled_at_k (env : Env) (dir : Directory) (files : List String) (k : Nat)
    (hv : dir.valid = true)
    (he : enumerate dir.readable dir.entries = .ok files)
    (hsetup : env.setupOk = true)
    (hfit : files.length ≤ u32Max)
    (hk : k < files.length)
    (hpre : ∀ j, j < k → env.cancelledAt j = false ∧
      env.setProgressOk j = true ∧ env.setLineOk j = true)
    (hcan : env.cancelledAt k = true) :
    (preload env dir).1.filter Event.isForcerCall =
      (List.range k).map Event.forcerCall ∧
    (∀ t, Event.progressUpdate k t ∉ (preload env dir).1) ∧
    Event.teardown ∈ (preload env dir).1 ∧
    (env.stopOk = true → (preload env dir).2 = .ok) := by
  obtain ⟨hfin, hfil, hpu⟩ := runLoop_cancelled_run env files.length hfit k 0 files.length
    hk (by omega) (fun j hj => by simpa using hpre j hj) (by simpa using hcan)
  have hp := preloadFiles_setup env files hsetup
  rw [hfin] at hp
  by_cases hstop : env.stopOk
  · refine ⟨?_, ?_, ?_, ?_⟩
    · simp [preload, hv, he, hp, hstop, List.filter_append, Event.isForcerCall, hfil,
        List.range_eq_range']
    · intro t hmem
      simp [preload, hv, he, hp, hstop] at hmem
      have := hpu k t hmem
      omega
    · simp [preload, hv, he, hp, hstop]
    · intro _
      simp [preload, hv, he, hp, hstop]
  · refine ⟨?_, ?_, ?_, ?_⟩
    · simp [preload, hv, he, hp, hstop, List.filter_append, Event.isForcerCall, hfil,
        List.range_eq_range']
    · intro t hmem
      simp [preload, hv, he, hp, hstop] at hmem
      have := hpu k t hmem
      omega
    · simp [preload, hv, he, hp, hstop]
    · intro hstop'
      exact absurd hstop' hstop

/-- Claim C4 (amended), witness: the spec's second concrete scenario — three
files, cancellation first observed before item 1 — gives exactly one Forcer
call, a teardown attempt, and a clean `Ok` end. -/
theorem preload_cancelled_at_k_witness :
    (preload cancelAfterOneEnv threeFileDir).1.filter Event.isForcerCall =
      (List.range 1).map Event.forcerCall ∧
    Event.teardown ∈ (preload cancelAfterOneEnv threeFileDir).1 ∧
    (preload cancelAfterOneEnv threeFileDir).2 = .ok := by
  have h := preload_cancelled_at_k cancelAfterOneEnv threeFileDir
    ["a.jpg", "b.txt", "c.png"] 1 rfl rfl rfl (by decide) (by decide)
    (by
      intro j hj
      have hj0 : j = 0 := by omega
      subst hj0
      exact ⟨rfl, rfl, rfl⟩)
    rfl
  exact ⟨h.1, h.2.2.1, h.2.2.2 rfl⟩

/-- Claim C5, counterexample: for an empty enumerated list with every setup
call succeeding, a failing teardown still makes the run return an error, so
"absent setup failures the run completes successfully" does not hold. -/
theorem preload_empty_dir_counterexample :
    (preload stopFailEnv emptyDir).1.filter Event.isForcerCall = [] ∧
    Event.teardown ∈ (preload stopFailEnv emptyDir).1 ∧
    (preload stopFailEnv emptyDir).2 ≠ .ok := by decide

/-- Claim C5 (amended): for an empty enumerated file list, absent setup and
teardown failures, the run completes successfully with zero Forcer
invocations and zero progress updates, and teardown is still called exactly
once: the whole event list of the run is the single teardown attempt. -/
theorem preload_empty_list (env : Env) (dir : Directory)
    (hv : dir.valid = true)
    (he : enumerate dir.readable dir.entries = .ok [])
    (hsetup : env.setupOk = true)
    (hstop : env.stopOk = true) :
    preload env dir = ([Event.teardown], .ok) := by
  have hp := preloadFiles_setup env ([] : List String) hsetup
  simp [preload, hv, he, hp, runLoop, hstop]

/-- Claim C5 (amended), witness. -/
theorem preload_empty_list_witness :
    preload allOkEnv emptyDir = ([Event.teardown], .ok) :=
  preload_empty_list allOkEnv emptyDir rfl rfl rfl rfl

/-- Claim C6: enumeration of a directory with `N` direct entries either
fails fatally with `FailedToReadDirectory` (exactly when the listing itself
fails, and that is the only error it can produce) or returns an ordered list
of length at most `N` in which every path is the successful canonicalization
of one of the entries, in listing order — entries that fail canonicalization
are silently dropped. -/
theorem enumerate_spec (readable : Bool) (entries : List EntryRead) :
    (readable = false → enumerate readable entries = .error .failedToReadDirectory) ∧
    (∀ e, enumerate readable entries = .error e → e = .failedToReadDirectory) ∧
    (readable = true → ∀ files, enumerate readable entries = .ok files →
      files.length ≤ entries.length ∧
      (files.map fun p => EntryRead.ok (some p)).Sublist entries) := by
  refine ⟨?_, ?_, ?_⟩
  · intro h
    simp [enumerate, h]
  · intro e h
    by_cases hr : readable
    · simp [enumerate, hr] at h
    · simp [enumerate, hr] at h
      exact h.symm
  · intro hr files hf
    simp [enumerate, hr] at hf
    subst hf
    exact ⟨List.length_filterMap_le _ _, canon_filterMap_sublist entries⟩

/-- Claim C6, witness: a three-entry listing with one unreadable entry and
one failed canonicalization enumerates to the single good path. -/
theorem enumerate_spec_witness :
    (["a.jpg"] : List String).length ≤ sampleEntries.length ∧
    ((["a.jpg"] : List String).map fun p => EntryRead.ok (some p)).Sublist sampleEntries :=
  (enumerate_spec true sampleEntries).2.2 rfl ["a.jpg"] rfl

/-- Claim C7: every progress update of a run carries the pair
`(currentIndex, total)` with `total` fixed at the file-list length and
`currentIndex` strictly below it (so it never exceeds the total); and the
fully processed three-file directory produces exactly the updates
`(0,3), (1,3), (2,3)`, each immediately before its Forcer call, followed by
the teardown. -/
theorem preload_progress_pairs :
    (∀ (env : Env) (files : List String) (c t : Nat),
      Event.progressUpdate c t ∈ (preloadFiles env files).1 →
        t = files.length ∧ c < t) ∧
    preload allOkEnv threeFileDir =
      ([.progressUpdate 0 3, .forcerCall 0, .progressUpdate 1 3, .forcerCall 1,
        .progressUpdate 2 3, .forcerCall 2, .teardown], .ok) := by
  constructor
  · intro env files c t h
    have h' := mem_runLoop_of_mem_preloadFiles env files _ (by simp) h
    obtain ⟨h1, h2, h3⟩ :=
      runLoop_progressUpdate_mem env files.length files.length 0 c t h'
    exact ⟨h3, by omega⟩
  · decide

/-- Claim C7, witness: the invariant applied to the update `(0, 3)` of the
three-file run. -/
theorem preload_progress_pairs_witness :
    (3 : Nat) = (["a.jpg", "b.txt", "c.png"] : List String).length ∧ (0 : Nat) < 3 :=
  preload_progress_pairs.1 allOkEnv ["a.jpg", "b.txt", "c.png"] 0 3 (by decide)

/-- Claim C8: the Forcer resolves the path via the binding context and, when
resolution succeeds, requests the thumbnail at the fixed square dimension
`DIMENSIONS = 72` with the force-extraction flag set; the returned image
data is discarded (success is bare unit whatever data came back), and
without a resolved shell item no request is issued at all. -/
theorem generate_request_spec (thumbResult : Except Unit Nat) (data : Nat) :
    (generate true thumbResult).1 = some ⟨DIMENSIONS, true⟩ ∧
    DIMENSIONS = 72 ∧
    generate true (.ok data) = (some ⟨72, true⟩, .ok ()) ∧
    generate false thumbResult = (none, .error .failedToCreateShellItem) :=
  ⟨rfl, rfl, rfl, rfl⟩

/-- Claim C8, witness. -/
theorem generate_request_spec_witness :
    (generate true (.ok 5)).1 = some ⟨DIMENSIONS, true⟩ ∧
    DIMENSIONS = 72 ∧
    generate true (.ok 5) = (some ⟨72, true⟩, .ok ()) ∧
    generate false (.ok 5) = (none, .error .failedToCreateShellItem) :=
  generate_request_spec (.ok 5) 5

/-- Claim C9: every error value `preload` returns is one of the fatal
variants; in particular it is never the local `FailedToCreateShellItem` or
`FailedToGenerateThumbnail`. -/
theorem preload_error_taxonomy (env : Env) (dir : Directory) (e : PreloadErrorKind)
    (h : (preload env dir).2 = .err e) :
    (e ≠ .failedToCreateShellItem ∧ e ≠ .failedToGenerateThumbnail) ∧
    (e = .invalidDirectory ∨ e = .failedToReadDirectory ∨ e = .failedToInitialiseCOM ∨
      e = .failedToCreateBindContext ∨ e = .failedToCreateThumbnailCache ∨
      e = .failedToCreateProgressDialog ∨ e = .failedToShowProgressDialog ∨
      e = .failedToUpdateProgressDialog ∨ e = .failedToHideProgressDialog) := by
  have hD : e = .invalidDirectory ∨ e = .failedToReadDirectory ∨ e = .failedToInitialiseCOM ∨
      e = .failedToCreateBindContext ∨ e = .failedToCreateThumbnailCache ∨
      e = .failedToCreateProgressDialog ∨ e = .failedToShowProgressDialog ∨
      e = .failedToUpdateProgressDialog ∨ e = .failedToHideProgressDialog := by
    by_cases hv : dir.valid
    · cases henum : enumerate dir.readable dir.entries with
      | error f =>
        have hf : f = .failedToReadDirectory := by
          by_cases hr : dir.readable
          · simp [enumerate, hr] at henum
          · simp [enumerate, hr] at henum
            exact henum.symm
        have he : e = f := by
          simp [preload, hv, henum] at h
          exact h.symm
        subst hf
        subst he
        tauto
      | ok files =>
        have h' : (preloadFiles env files).2 = .err e := by
          simpa [preload, hv, henum] using h
        have := preloadFiles_err_kind env files e h'
        tauto
    · have he : e = .invalidDirectory := by
        simp [preload, hv] at h
        exact h.symm
      subst he
      tauto
  refine ⟨⟨?_, ?_⟩, hD⟩ <;>
    rcases hD with rfl | rfl | rfl | rfl | rfl | rfl | rfl | rfl | rfl <;> decide

/-- Claim C9, witness: the run whose COM initialisation fails returns
`FailedToInitialiseCOM`, a fatal variant. -/
theorem preload_error_taxonomy_witness :
    (PreloadErrorKind.failedToInitialiseCOM ≠ .failedToCreateShellItem ∧
      PreloadErrorKind.failedToInitialiseCOM ≠ .failedToGenerateThumbnail) ∧
    (PreloadErrorKind.failedToInitialiseCOM = .invalidDirectory ∨
      PreloadErrorKind.failedToInitialiseCOM = .failedToReadDirectory ∨
      PreloadErrorKind.failedToInitialiseCOM = .failedToInitialiseCOM ∨
      PreloadErrorKind.failedToInitialiseCOM = .failedToCreateBindContext ∨
      PreloadErrorKind.failedToInitialiseCOM = .failedToCreateThumbnailCache ∨
      PreloadErrorKind.failedToInitialiseCOM = .failedToCreateProgressDialog ∨
      PreloadErrorKind.failedToInitialiseCOM = .failedToShowProgressDialog ∨
      PreloadErrorKind.failedToInitialiseCOM = .failedToUpdateProgressDialog ∨
      PreloadErrorKind.failedToInitialiseCOM = .failedToHideProgressDialog) :=
  preload_error_taxonomy comFailEnv emptyDir .failedToInitialiseCOM (by decide)

/-- Claim C10: when the enumerated list's length fits in `u32`, the
per-iteration index/total conversions never panic, whatever the rest of the
environment does; when the length exceeds `u32::MAX` and the first iteration
is reached (no cancellation at item 0), the run dies with the
`expect`-panic "failed to convert progress total" instead of returning any
`PreloadError` variant — stated both for the full post-setup run and for the
loop itself at an arbitrary oversized total. -/
theorem preload_u32_conversion (env : Env) (files : List String) (total : Nat) :
    (files.length ≤ u32Max → ∀ m, (preloadFiles env files).2 ≠ .panicked m) ∧
    (u32Max < files.length → env.setupOk = true → env.cancelledAt 0 = false →
      (preloadFiles env files).2 = .panicked "failed to convert progress total") ∧
    (u32Max < total → 0 < total → env.cancelledAt 0 = false →
      (runLoop env total 0 total).2 = .panicked "failed to convert progress total") := by
  refine ⟨?_, ?_, ?_⟩
  · intro hfit m hpan
    have hsrc := preloadFiles_panicked_src env files m hpan
    exact runLoop_no_panic env files.length hfit files.length 0 (by omega) m hsrc
  · intro hbig hsetup hcan
    have hp := preloadFiles_setup env files hsetup
    obtain ⟨t, htt⟩ : ∃ t, files.length = t + 1 := ⟨files.length - 1, by omega⟩
    have hrun : (runLoop env files.length 0 files.length).2 =
        .panicked "failed to convert progress total" := by
      rw [htt]
      have hi : ¬ u32Max < 0 := by omega
      have hbt : u32Max < t + 1 := by omega
      simp [runLoop, hcan, hi, hbt]
    rw [hrun] at hp
    simp [hp]
  · intro hbig hpos hcan
    obtain ⟨t, rfl⟩ : ∃ t, total = t + 1 := ⟨total - 1, by omega⟩
    have hi : ¬ u32Max < 0 := by omega
    simp [runLoop, hcan, hi, hbig]

/-- Claim C10, witness: a one-file run cannot panic, and the loop given the
oversized total `2^32` panics at its very first iteration with the total
conversion message. -/
theorem preload_u32_conversion_witness :
    (preloadFiles allOkEnv ["a.jpg"]).2 ≠ .panicked "failed to convert progress index" ∧
    (runLoop allOkEnv 4294967296 0 4294967296).2 =
      .panicked "failed to convert progress total" := by
  have h := preload_u32_conversion allOkEnv ["a.jpg"] 4294967296
  exact ⟨h.1 (by decide) "failed to convert progress index", h.2.2 (by decide) (by decide) rfl⟩

end ThumbnailPreloader
